import Mathlib

/-!
Verification development for the CrystalSuMAPOTrainer utility scripts:
`DPO_dataset_generation_utils/Sampler_api.py`, `DPO_dataset_generation_utils/DELECT.py`,
`DPO_dataset_generation_utils/from safetensors.py` and `Trainer/utils.py`.
Python machine floats are modelled by exact real arithmetic, `int(...)`
truncation by `pyInt`, Python `//` by `Int.fdiv`, raised exceptions by
`Option`/`Except` results, and filesystem / HTTP effects by explicit
environment parameters.
-/

namespace SamplerApi

/-- Python `int(x)` applied to a real value: truncation toward zero. -/
noncomputable def pyInt (x : ℝ) : ℤ := if 0 ≤ x then ⌊x⌋ else ⌈x⌉

/-- Embedding of `calculate_adjusted_resolution` (`Sampler_api.py`, lines 12-28):
clamp the longest side to `max_side`, then rescale by `sqrt(max_area/area)` when
the area exceeds `max_area`, then round both sides down to multiples of 8. -/
noncomputable def calculate_adjusted_resolution (width height max_area : ℤ)
    (max_side : ℤ := 2048) : ℤ × ℤ :=
  let p1 : ℤ × ℤ :=
    if max_side < width ∨ max_side < height then
      let scale : ℝ := (max_side : ℝ) / ((max width height : ℤ) : ℝ)
      (pyInt ((width : ℝ) * scale), pyInt ((height : ℝ) * scale))
    else (width, height)
  let area : ℤ := p1.1 * p1.2
  let p2 : ℤ × ℤ :=
    if max_area < area then
      let scale : ℝ := Real.sqrt ((max_area : ℝ) / (area : ℝ))
      (pyInt ((p1.1 : ℝ) * scale), pyInt ((p1.2 : ℝ) * scale))
    else p1
  (p2.1.fdiv 8 * 8, p2.2.fdiv 8 * 8)

/-- Outcome of the HTTP POST inside `fetch_image_from_api`: the request may
raise, the JSON reply may lack an `images` field, or it carries a list of
base64-encoded images. -/
inductive ApiResult where
  | raised : ApiResult
  | noImagesField : ApiResult
  | ok : List String → ApiResult

/-- Embedding of `fetch_image_from_api` (lines 30-37): an exception from the
POST is caught (and logged) yielding `[]`; a reply without an `images` key
yields the default `[]`. -/
def fetch_image_from_api : ApiResult → List String
  | .raised => []
  | .noImagesField => []
  | .ok images => images

/-- The request body assembled in `process_artist_images` (lines 51-70);
the constant fields of the Python dict (negative prompt, sampler, steps, ...)
are omitted, the random seed is irrelevant to every claim. -/
structure Request where
  prompt : String
  batch_size : ℤ
  width : ℤ
  height : ℤ
  model_name : String

/-- One record of the dataset manifest. -/
structure ImageInfo where
  tag : String
  width : ℤ
  height : ℤ
  generated : Bool

/-- The CLI arguments of the generation driver that the loop body reads. -/
structure GenArgs where
  model_name : String
  batch_size : ℤ
  max : ℤ

/-- The effectful environment of the generation driver: the HTTP endpoint and
whether decoding-and-saving a given base64 image succeeds. -/
structure GenEnv where
  api : Request → ApiResult
  save : String → Bool

/-- Model of `Path(image_name).stem`: the file name with its extension dropped. -/
def pathStem (s : String) : String :=
  let parts := s.splitOn (".")
  if parts.length ≤ 1 then s else String.intercalate (".") parts.dropLast

/-- The request dict built for one manifest entry (lines 49-70). -/
noncomputable def mkRequest (args : GenArgs) (info : ImageInfo) : Request :=
  let wh := calculate_adjusted_resolution info.width info.height (args.max * args.max)
  { prompt := (info.tag.replace ("|||") ("")).trim,
    batch_size := args.batch_size,
    width := wh.1,
    height := wh.2,
    model_name := args.model_name }

/-- The decode-and-save loop over the returned images (lines 76-80): returns
the files written before any failure, and whether a decode/save raised. -/
def saveLoop (env : GenEnv) (baseName : String) : List String → ℕ → List String × Bool
  | [], _ => ([], false)
  | b :: rest, i =>
    if env.save b then
      let r := saveLoop env baseName rest (i + 1)
      ((baseName ++ ("_DPO") ++ toString (i + 1) ++ (".webp")) :: r.1, r.2)
    else ([], true)

/-- Observable effects of handling one manifest entry in `process_artist_images`. -/
structure EntryResult where
  requested : Option Request
  saved : List String
  info : ImageInfo
  wroteManifest : Bool
  errorLogged : Bool

/-- Embedding of one iteration of the loop of `process_artist_images`
(lines 44-90): an entry already marked generated is skipped; otherwise the
request is made, the returned images are decoded and saved, the `generated`
flag is set and the manifest is rewritten; an exception while decoding or
saving is caught and logged, leaving the record unchanged. -/
noncomputable def process_entry (env : GenEnv) (args : GenArgs)
    (e : String × ImageInfo) : EntryResult :=
  if e.2.generated then
    { requested := none, saved := [], info := e.2,
      wroteManifest := false, errorLogged := false }
  else
    let req := mkRequest args e.2
    let images_base64 := fetch_image_from_api (env.api req)
    let r := saveLoop env (pathStem e.1) images_base64 0
    if r.2 then
      { requested := some req, saved := r.1, info := e.2,
        wroteManifest := false, errorLogged := true }
    else
      { requested := some req, saved := r.1, info := { e.2 with generated := true },
        wroteManifest := true, errorLogged := false }

/-- Embedding of the loop of `process_artist_images` over one artist's entries. -/
noncomputable def process_artist_images (env : GenEnv) (args : GenArgs)
    (images_info : List (String × ImageInfo)) : List EntryResult :=
  images_info.map (process_entry env args)

/-- Whether the body of the `try` block raises for a given entry (a decode or
save failure; the request itself never raises out of `fetch_image_from_api`). -/
noncomputable def entryRaises (env : GenEnv) (args : GenArgs)
    (e : String × ImageInfo) : Bool :=
  !e.2.generated &&
    (saveLoop env (pathStem e.1) (fetch_image_from_api (env.api (mkRequest args e.2))) 0).2

/-- A generation environment whose HTTP POST always raises. -/
def envRaise : GenEnv := { api := fun _ => .raised, save := fun _ => true }

/-- A generation environment where the API answers one image whose decode/save fails. -/
def envSaveFail : GenEnv := { api := fun _ => .ok [("img")], save := fun _ => false }

/-- A generation environment where the API answers no images and saving works. -/
def envOk : GenEnv := { api := fun _ => .ok [], save := fun _ => true }

/-- Sample CLI arguments (the Python defaults). -/
def args0 : GenArgs := { model_name := ("m"), batch_size := 3, max := 1536 }

/-- A manifest record already marked generated. -/
def infoDone : ImageInfo := { tag := ("t"), width := 64, height := 64, generated := true }

/-- A manifest record not yet generated. -/
def infoTodo : ImageInfo := { tag := ("t"), width := 64, height := 64, generated := false }

end SamplerApi

namespace Delect

/-- Outcome recorded for one `process.mark` file in `delete_process_mark_files`. -/
inductive DelOutcome where
  | deleted : String → DelOutcome
  | errorLogged : String → DelOutcome

/-- Embedding of `delete_process_mark_files` (`DELECT.py`): walk the files,
unlink every file named `process.mark`, catching and logging a failed deletion
and continuing with the next file. -/
def delete_process_mark_files (unlink : String → Except String Unit)
    (files : List (String × String)) : List DelOutcome :=
  files.filterMap fun df =>
    if df.2 = ("process.mark") then
      some (match unlink (df.1 ++ ("/") ++ df.2) with
        | .ok _ => .deleted (df.1 ++ ("/") ++ df.2)
        | .error _ => .errorLogged (df.1 ++ ("/") ++ df.2))
    else none

end Delect

namespace Merge

/-- The file name of the first shard, hard-coded in `from safetensors.py`. -/
def shard1Name : String := "diffusion_pytorch_model-00001-of-00002.safetensors"

/-- The file name of the second shard, hard-coded in `from safetensors.py`. -/
def shard2Name : String := "diffusion_pytorch_model-00002-of-00002.safetensors"

/-- The merging loop of `merge_safetensors` (lines 19-23): each tensor is taken
from the first loaded file when the index names the first shard file, and from
the second loaded file in every other case; a missing tensor raises `KeyError`
(`none`). -/
def mergeLoop {α : Type} (file1_weights file2_weights : String → Option α) :
    List (String × String) → Option (List (String × α))
  | [] => some []
  | kv :: rest =>
    match (if kv.2 = shard1Name then file1_weights kv.1 else file2_weights kv.1) with
    | none => none
    | some t => (mergeLoop file1_weights file2_weights rest).map fun m => (kv.1, t) :: m

/-- Embedding of `merge_safetensors` (`from safetensors.py`): read `weight_map`
from the index config (raising `KeyError`, i.e. `none`, when absent), load the
two fixed shard files from the shard store, and assemble the merged mapping.
`none` models an uncaught exception, in which case `save_file` is never
reached, so no output is written. -/
def merge_safetensors {α : Type} (config : Option (List (String × String)))
    (shards : String → String → Option α) : Option (List (String × α)) :=
  match config with
  | none => none
  | some weight_map => mergeLoop (shards shard1Name) (shards shard2Name) weight_map

/-- A shard store holding tensor 1 in the first shard, 2 in the second and 3 in
any other shard file. -/
def shards3 : String → String → Option ℕ := fun n _ =>
  if n = shard1Name then some 1 else if n = shard2Name then some 2 else some 3

/-- A shard store holding tensor 1 in the first shard and 2 elsewhere. -/
def shardsGood : String → String → Option ℕ := fun n _ =>
  if n = shard1Name then some 1 else some 2

end Merge

namespace Trainer

/-- The two text-encoder classes supported by the trainer. -/
inductive TextEncoderCls where
  | clipTextModel : TextEncoderCls
  | clipTextModelWithProjection : TextEncoderCls

/-- Embedding of `import_model_class_from_model_name_or_path` (`Trainer/utils.py`,
lines 29-46), as a function of the architecture name `architectures[0]` found in
the pretrained text-encoder config. -/
def import_model_class_from_model_name_or_path (model_class : String) :
    Except String TextEncoderCls :=
  if model_class = ("CLIPTextModel") then .ok .clipTextModel
  else if model_class = ("CLIPTextModelWithProjection") then .ok .clipTextModelWithProjection
  else .error (model_class ++ (" is not supported."))

/-- Embedding of `calculate_adaptive_size` (`Trainer/utils.py`, lines 274-287):
rescale by `sqrt(target_area/img_area)` rounding to multiples of `divisible`
only when the image area exceeds the budget, then force divisibility.
Returns `(height, width)`. -/
noncomputable def calculate_adaptive_size (height width target_area divisible : ℕ) : ℕ × ℕ :=
  let img_area := height * width
  let p : ℕ × ℕ :=
    if target_area < img_area then
      let scale_factor : ℝ := Real.sqrt ((target_area : ℝ) / (img_area : ℝ))
      ((⌊(height : ℝ) * scale_factor / (divisible : ℝ)⌋).toNat * divisible,
        (⌊(width : ℝ) * scale_factor / (divisible : ℝ)⌋).toNat * divisible)
    else (height, width)
  (p.1 - p.1 % divisible, p.2 - p.2 % divisible)

/-- The shape behaviour of `process_image` (`Trainer/utils.py`, lines 289-296):
the tensor is resized to the target exactly when the source exceeds the target
in some dimension; otherwise it keeps its original dimensions. -/
def process_image_size (height width target_h target_w : ℕ) : ℕ × ℕ :=
  if target_h < height ∨ target_w < width then (target_h, target_w) else (height, width)

/-- A CHW image tensor, with totalized index access. -/
structure Tensor3 where
  channels : ℤ
  height : ℤ
  width : ℤ
  data : ℤ → ℤ → ℤ → ℝ

/-- `torch.cat((a, b), dim=0)`: concatenation along the channel dimension. -/
def catC (a b : Tensor3) : Tensor3 :=
  { channels := a.channels + b.channels, height := a.height, width := a.width,
    data := fun c i j => if c < a.channels then a.data c i j else b.data (c - a.channels) i j }

/-- `torchvision.transforms.functional.crop(img, top, left, height, width)`. -/
def cropT (t : Tensor3) (top left h w : ℤ) : Tensor3 :=
  { channels := t.channels, height := h, width := w,
    data := fun c i j => t.data c (i + top) (j + left) }

/-- `transforms.RandomHorizontalFlip(p=1.0)`: mirror the width dimension. -/
def hflipT (t : Tensor3) : Tensor3 :=
  { channels := t.channels, height := t.height, width := t.width,
    data := fun c i j => t.data c i (t.width - 1 - j) }

/-- `transforms.Normalize([0.5], [0.5])` applied pointwise. -/
noncomputable def normalizeT (t : Tensor3) : Tensor3 :=
  { channels := t.channels, height := t.height, width := t.width,
    data := fun c i j => (t.data c i j - 0.5) / 0.5 }

/-- The slice of `len` consecutive channels of `t` starting at channel `lo`. -/
def sliceC (t : Tensor3) (lo len : ℤ) : Tensor3 :=
  { channels := len, height := t.height, width := t.width,
    data := fun c i j => t.data (lo + c) i j }

/-- Two tensors agree: equal dimensions, equal entries on valid channels. -/
def Tensor3.EqOn (s t : Tensor3) : Prop :=
  s.channels = t.channels ∧ s.height = t.height ∧ s.width = t.width ∧
    ∀ c i j : ℤ, 0 ≤ c → c < s.channels → s.data c i j = t.data c i j

/-- Python `round(d / 2.0)` for an integer `d` (round half to even). -/
def pyHalfRound (d : ℤ) : ℤ :=
  if d % 2 = 0 then d / 2
  else if (d.fdiv 2) % 2 = 0 then d.fdiv 2 else d.fdiv 2 + 1

/-- The trainer CLI arguments read by the preprocessing closure. -/
structure TrainArgs where
  label_noise_prob : Option ℝ
  random_crop : Bool
  no_hflip : Bool

/-- Outcomes of the random draws made while preprocessing one pair. -/
structure Rand where
  coinNoise : Bool
  cropPos : ℤ × ℤ
  coinFlip : Bool

/-- Embedding of the pair-processing loop body of `preprocess_train`
(`Trainer/utils.py`, lines 327-352) for a single example: optional label noise,
ordering of the pair by the label, channel concatenation, one shared crop
(center or random), one shared optional horizontal flip, and normalization.
Returns the combined pair tensor together with `crop_top_left`. -/
noncomputable def preprocess_pair (args : TrainArgs) (rnd : Rand) (t0 t1 : Tensor3)
    (label_0 : ℤ) (target_h target_w : ℤ) : Tensor3 × ℤ × ℤ :=
  let label := if args.label_noise_prob.isSome && rnd.coinNoise then 1 - label_0 else label_0
  let pair := if label = 0 then (t1, t0) else (t0, t1)
  let combined_im := catC pair.1 pair.2
  let yx : ℤ × ℤ :=
    if !args.random_crop then
      (max 0 (pyHalfRound (combined_im.height - target_h)),
        max 0 (pyHalfRound (combined_im.width - target_w)))
    else rnd.cropPos
  let cropped := cropT combined_im yx.1 yx.2 target_h target_w
  let flipped := if !args.no_hflip && rnd.coinFlip then hflipT cropped else cropped
  (normalizeT flipped, yx)

/-- Mean of a list of reals (`tensor.mean()`), with `mean [] = 0`. -/
noncomputable def mean (xs : List ℝ) : ℝ := xs.sum / xs.length

/-- `F.logsigmoid(x) = log (1 / (1 + exp (-x)))`. -/
noncomputable def logsigmoid (x : ℝ) : ℝ := -Real.log (1 + Real.exp (-x))

/-- The transform `(snr * x) / (exp (snr * x) - 1)` that `compute_loss`
applies to each per-example loss before forming the margin. -/
noncomputable def snrTransform (snr x : ℝ) : ℝ :=
  snr * x / (Real.exp (snr * x) - 1)

/-- Per-example `F.mse_loss(..., reduction="none")` followed by the mean over
the non-batch dimensions: the mean of the squared entrywise differences. -/
noncomputable def mse_loss_mean (p t : List ℝ) : ℝ :=
  mean (List.zipWith (fun a b => (a - b) ^ 2) p t)

/-- The elementwise log-odds margin of `compute_loss`. -/
noncomputable def logOddsOf (snr : ℝ) (w l : List ℝ) : List ℝ :=
  List.zipWith (fun a b => snrTransform snr a - snrTransform snr b) w l

/-- Embedding of `compute_loss` (`Trainer/utils.py`, lines 391-406).  A batch
is a list of flattened examples; `chunk(2)` splits it into halves of sizes
`⌈n/2⌉` and `⌊n/2⌋`.  Returns the scalar loss together with the winning,
losing and ratio vectors. -/
noncomputable def compute_loss (snr_value beta_mapo : ℝ) (num_train_timesteps : ℕ)
    (model_pred target : List (List ℝ)) : ℝ × List ℝ × List ℝ × List ℝ :=
  let model_losses := List.zipWith mse_loss_mean model_pred target
  let k := (model_losses.length + 1) / 2
  let model_losses_w := model_losses.take k
  let model_losses_l := model_losses.drop k
  let log_odds := logOddsOf snr_value model_losses_w model_losses_l
  let ratio_losses := log_odds.map fun x =>
    beta_mapo * logsigmoid (x * (num_train_timesteps : ℝ))
  (mean model_losses_w - mean ratio_losses, model_losses_w, model_losses_l, ratio_losses)

/-- Exchanging the two halves of a batch (which half is winning). -/
def swapHalves {α : Type} (xs : List α) : List α :=
  xs.drop (xs.length / 2) ++ xs.take (xs.length / 2)

/-- Spec wording: the per-example MSE loss, the mean squared difference of one
example against its target. -/
noncomputable def spec_mse (p t : List ℝ) : ℝ :=
  ((p.zip t).map fun q => (q.1 - q.2) ^ 2).sum / p.length

/-- Spec wording: the `i`-th winning per-example MSE loss (first half). -/
noncomputable def spec_win (model_pred target : List (List ℝ)) (i : ℕ) : ℝ :=
  spec_mse (model_pred.getD i []) (target.getD i [])

/-- Spec wording: the `i`-th losing per-example MSE loss (second half). -/
noncomputable def spec_lose (model_pred target : List (List ℝ)) (i : ℕ) : ℝ :=
  spec_mse (model_pred.getD (model_pred.length / 2 + i) [])
    (target.getD (model_pred.length / 2 + i) [])

/-- Spec wording: the `i`-th ratio loss, `beta_mapo` times the log-sigmoid of
the log-odds margin (difference of the snr-transformed winning and losing
losses) scaled by the scheduler's number of training timesteps. -/
noncomputable def spec_ratio (snr_value beta_mapo : ℝ) (num_train_timesteps : ℕ)
    (model_pred target : List (List ℝ)) (i : ℕ) : ℝ :=
  beta_mapo * logsigmoid ((snrTransform snr_value (spec_win model_pred target i) -
    snrTransform snr_value (spec_lose model_pred target i)) * (num_train_timesteps : ℝ))

/-- Spec wording: the scalar objective, the mean of the winning-half MSE losses
minus the mean of the ratio losses. -/
noncomputable def spec_loss (snr_value beta_mapo : ℝ) (num_train_timesteps : ℕ)
    (model_pred target : List (List ℝ)) : ℝ :=
  ((List.range (model_pred.length / 2)).map (spec_win model_pred target)).sum /
      (model_pred.length / 2 : ℕ) -
    ((List.range (model_pred.length / 2)).map
      (spec_ratio snr_value beta_mapo num_train_timesteps model_pred target)).sum /
      (model_pred.length / 2 : ℕ)

end Trainer

namespace Trainer

/-- C5 counterexample: a 10×10 source fits the 100×100 pixel-area budget, yet
adaptive preprocessing with divisibility 8 resizes it to 8×8 instead of passing
it through unchanged. -/
theorem adaptive_passthrough_counterexample :
    10 * 10 ≤ 100 * 100 ∧
    process_image_size 10 10 (calculate_adaptive_size 10 10 (100 * 100) 8).1
      (calculate_adaptive_size 10 10 (100 * 100) 8).2 ≠ (10, 10) := by
  have h : calculate_adaptive_size 10 10 (100 * 100) 8 = (8, 8) := by
    unfold calculate_adaptive_size
    norm_num
  refine ⟨by norm_num, ?_⟩
  rw [h]
  unfold process_image_size
  norm_num

/-- C5 amended: an image whose area is within the budget and whose dimensions
are already multiples of the divisibility constraint passes through adaptive
preprocessing with its original dimensions unchanged. -/
theorem adaptive_passthrough (h w A d : ℕ) (harea : h * w ≤ A)
    (hdh : d ∣ h) (hdw : d ∣ w) :
    calculate_adaptive_size h w A d = (h, w) ∧
    process_image_size h w (calculate_adaptive_size h w A d).1
      (calculate_adaptive_size h w A d).2 = (h, w) := by
  have h1 : calculate_adaptive_size h w A d = (h, w) := by
    simp only [calculate_adaptive_size]
    rw [if_neg (by omega : ¬ A < h * w)]
    obtain ⟨ch, rfl⟩ := hdh
    obtain ⟨cw, rfl⟩ := hdw
    simp [Nat.mul_mod_right]
  refine ⟨h1, ?_⟩
  rw [h1]
  unfold process_image_size
  simp

/-- C5 witness: a 16×8 image with budget 200 and divisibility 8 is unchanged. -/
theorem adaptive_passthrough_witness :
    calculate_adaptive_size 16 8 200 8 = (16, 8) ∧
    process_image_size 16 8 (calculate_adaptive_size 16 8 200 8).1
      (calculate_adaptive_size 16 8 200 8).2 = (16, 8) :=
  adaptive_passthrough 16 8 200 8 (by norm_num) (by norm_num) (by norm_num)

end Trainer

namespace Merge

/-- Unfolding lemma for the merging loop on a nonempty weight map. -/
theorem mergeLoop_cons {α : Type} (file1_weights file2_weights : String → Option α)
    (kv : String × String) (rest : List (String × String)) :
    mergeLoop file1_weights file2_weights (kv :: rest) =
      match (if kv.2 = shard1Name then file1_weights kv.1 else file2_weights kv.1) with
      | none => none
      | some t => (mergeLoop file1_weights file2_weights rest).map fun m => (kv.1, t) :: m :=
  rfl

/-- C2 counterexample: the index names shard `othershard` for key `k`, in a
shard store whose `othershard` holds tensor 3 at `k`, but the merged mapping
stores tensor 2 — the tensor of the second hard-coded file, not the tensor of
the shard the index names. -/
theorem merge_named_shard_counterexample :
    merge_safetensors (some [(("k"), ("othershard"))]) shards3 =
      some [(("k"), 2)] ∧
    shards3 ("othershard") ("k") = some 3 ∧ (2 : ℕ) ≠ 3 := by
  refine ⟨?_, ?_, by norm_num⟩
  · rfl
  · rfl

/-- C2 amended: provided every shard file named in the weight map is one of the
two hard-coded shard file names, a successful merge has exactly the weight
map's key set and stores, for every key, the tensor taken from the shard file
the index names for that key. -/
theorem merge_matches_index (weight_map : List (String × String))
    (shards : String → String → Option ℕ) (m : List (String × ℕ))
    (hnames : ∀ p ∈ weight_map, p.2 = shard1Name ∨ p.2 = shard2Name)
    (hm : merge_safetensors (some weight_map) shards = some m) :
    m.map Prod.fst = weight_map.map Prod.fst ∧
    ∀ p ∈ weight_map, ∃ t, shards p.2 p.1 = some t ∧ (p.1, t) ∈ m := by
  unfold merge_safetensors at hm
  dsimp only at hm
  induction weight_map generalizing m with
  | nil =>
    simp only [mergeLoop, Option.some_inj] at hm
    subst hm
    simp
  | cons hd tl ih =>
    rw [mergeLoop_cons] at hm
    rcases hlook : (if hd.2 = shard1Name then shards shard1Name hd.1
        else shards shard2Name hd.1) with _ | t
    · rw [hlook] at hm; exact Option.noConfusion hm
    · rw [hlook] at hm
      rcases Option.map_eq_some'.mp hm with ⟨m', hm', rfl⟩
      obtain ⟨hkeys, hmem⟩ := ih m' (fun p hp => hnames p (List.mem_cons_of_mem hd hp)) hm'
      constructor
      · simp [hkeys]
      · intro p hp
        rcases List.mem_cons.mp hp with rfl | hptl
        · refine ⟨t, ?_, List.mem_cons_self _ _⟩
          rcases hnames p (List.mem_cons_self _ _) with h2 | h2 <;>
            rw [h2] <;> rw [h2] at hlook <;> simpa using hlook
        · obtain ⟨t', ht1, ht2⟩ := hmem p hptl
          exact ⟨t', ht1, List.mem_cons_of_mem _ ht2⟩

/-- C2 witness: a two-entry index naming both hard-coded shards merges to the
expected mapping taken from the named shards. -/
theorem merge_matches_index_witness :
    ([(("a"), 1), (("b"), 2)] : List (String × ℕ)).map Prod.fst =
      ([(("a"), shard1Name), (("b"), shard2Name)]).map Prod.fst ∧
    ∀ p ∈ [(("a"), shard1Name), (("b"), shard2Name)],
      ∃ t, shardsGood p.2 p.1 = some t ∧ (p.1, t) ∈ ([(("a"), 1), (("b"), 2)] : List (String × ℕ)) :=
  merge_matches_index [(("a"), shard1Name), (("b"), shard2Name)] shardsGood
    [(("a"), 1), (("b"), 2)]
    (by intro p hp; rcases List.mem_cons.mp hp with rfl | hp' <;> simp_all)
    (by rfl)

end Merge

/-- C9: structural failures raise and abort before any output: a config without
a `weight_map` key, or an index entry whose selected shard lacks the tensor,
makes `merge_safetensors` raise with nothing written; an unsupported
text-encoder architecture makes `import_model_class_from_model_name_or_path`
raise `ValueError`. -/
theorem structural_failures_raise :
    (∀ shards : String → String → Option ℕ,
      Merge.merge_safetensors none shards = none) ∧
    (∀ (weight_map : List (String × String)) (shards : String → String → Option ℕ)
      (k f : String), (k, f) ∈ weight_map →
      (if f = Merge.shard1Name then shards Merge.shard1Name k
        else shards Merge.shard2Name k) = none →
      Merge.merge_safetensors (some weight_map) shards = none) ∧
    (∀ arch : String, arch ≠ ("CLIPTextModel") →
      arch ≠ ("CLIPTextModelWithProjection") →
      ∃ e, Trainer.import_model_class_from_model_name_or_path arch = .error e) := by
  refine ⟨fun _ => rfl, ?_, ?_⟩
  · intro weight_map shards k f hmem hnone
    unfold Merge.merge_safetensors
    dsimp only
    induction weight_map with
    | nil => cases hmem
    | cons hd tl ih =>
      rw [Merge.mergeLoop_cons]
      rcases List.mem_cons.mp hmem with rfl | htl
      · dsimp only
        rw [hnone]
      · rcases hlook : (if hd.2 = Merge.shard1Name then shards Merge.shard1Name hd.1
            else shards Merge.shard2Name hd.1) with _ | t
        · rfl
        · rw [ih htl]
          rfl
  · intro arch h1 h2
    unfold Trainer.import_model_class_from_model_name_or_path
    rw [if_neg h1, if_neg h2]
    exact ⟨_, rfl⟩

namespace SamplerApi

/-- Truncation of a nonnegative real is nonnegative. -/
theorem pyInt_nonneg {x : ℝ} (h : 0 ≤ x) : 0 ≤ pyInt x := by
  unfold pyInt
  rw [if_pos h]
  exact Int.floor_nonneg.mpr h

/-- Truncation of a nonnegative real does not exceed it. -/
theorem pyInt_le_self {x : ℝ} (h : 0 ≤ x) : (pyInt x : ℝ) ≤ x := by
  unfold pyInt
  rw [if_pos h]
  exact Int.floor_le x

/-- Truncation of a nonnegative real below an integer stays below it. -/
theorem pyInt_le_int {x : ℝ} {b : ℤ} (h : 0 ≤ x) (hb : x ≤ (b : ℝ)) : pyInt x ≤ b := by
  have h1 := pyInt_le_self h
  exact_mod_cast le_trans h1 hb

/-- Scaling `v ≤ M` by `S / M` and truncating lands in `[0, S]`. -/
theorem pyInt_scale_le {v M S : ℤ} (hv : 0 ≤ v) (hM : 0 < M) (hvM : v ≤ M) (hS : 0 ≤ S) :
    0 ≤ pyInt ((v : ℝ) * ((S : ℝ) / (M : ℝ))) ∧
    pyInt ((v : ℝ) * ((S : ℝ) / (M : ℝ))) ≤ S := by
  have hM' : (0 : ℝ) < (M : ℝ) := by exact_mod_cast hM
  have hv' : (0 : ℝ) ≤ (v : ℝ) := by exact_mod_cast hv
  have hS' : (0 : ℝ) ≤ (S : ℝ) := by exact_mod_cast hS
  have hvM' : (v : ℝ) ≤ (M : ℝ) := by exact_mod_cast hvM
  have hx : 0 ≤ (v : ℝ) * ((S : ℝ) / (M : ℝ)) :=
    mul_nonneg hv' (div_nonneg hS' hM'.le)
  have hle : (v : ℝ) * ((S : ℝ) / (M : ℝ)) ≤ (S : ℝ) := by
    rw [← mul_div_assoc, div_le_iff₀ hM']
    nlinarith
  exact ⟨pyInt_nonneg hx, pyInt_le_int hx hle⟩

/-- Rescaling a pair whose area exceeds `A` by `sqrt (A / area)` and truncating
shrinks both sides and brings the area within `A`. -/
theorem pyInt_sqrt_pair {a b A : ℤ} (ha : 0 ≤ a) (hb : 0 ≤ b) (hA : 0 ≤ A)
    (hlt : A < a * b) :
    0 ≤ pyInt ((a : ℝ) * Real.sqrt ((A : ℝ) / ((a * b : ℤ) : ℝ))) ∧
    0 ≤ pyInt ((b : ℝ) * Real.sqrt ((A : ℝ) / ((a * b : ℤ) : ℝ))) ∧
    pyInt ((a : ℝ) * Real.sqrt ((A : ℝ) / ((a * b : ℤ) : ℝ))) ≤ a ∧
    pyInt ((b : ℝ) * Real.sqrt ((A : ℝ) / ((a * b : ℤ) : ℝ))) ≤ b ∧
    pyInt ((a : ℝ) * Real.sqrt ((A : ℝ) / ((a * b : ℤ) : ℝ))) *
      pyInt ((b : ℝ) * Real.sqrt ((A : ℝ) / ((a * b : ℤ) : ℝ))) ≤ A := by
  set s : ℝ := Real.sqrt ((A : ℝ) / ((a * b : ℤ) : ℝ)) with hs
  have hab : (0 : ℤ) < a * b := lt_of_le_of_lt hA hlt
  have hab' : (0 : ℝ) < ((a * b : ℤ) : ℝ) := by exact_mod_cast hab
  have hA' : (0 : ℝ) ≤ (A : ℝ) := by exact_mod_cast hA
  have hAab : (A : ℝ) ≤ ((a * b : ℤ) : ℝ) := by exact_mod_cast hlt.le
  have hr0 : 0 ≤ (A : ℝ) / ((a * b : ℤ) : ℝ) := div_nonneg hA' hab'.le
  have hr1 : (A : ℝ) / ((a * b : ℤ) : ℝ) ≤ 1 := by
    rw [div_le_one hab']
    exact hAab
  have hs0 : 0 ≤ s := Real.sqrt_nonneg _
  have hs1 : s ≤ 1 := by
    rw [hs, show (1 : ℝ) = Real.sqrt 1 from Real.sqrt_one.symm]
    exact Real.sqrt_le_sqrt hr1
  have ha' : (0 : ℝ) ≤ (a : ℝ) := by exact_mod_cast ha
  have hb' : (0 : ℝ) ≤ (b : ℝ) := by exact_mod_cast hb
  have hxa : 0 ≤ (a : ℝ) * s := mul_nonneg ha' hs0
  have hxb : 0 ≤ (b : ℝ) * s := mul_nonneg hb' hs0
  have hlea : (a : ℝ) * s ≤ (a : ℝ) := by nlinarith
  have hleb : (b : ℝ) * s ≤ (b : ℝ) := by nlinarith
  have hsq : s ^ 2 = (A : ℝ) / ((a * b : ℤ) : ℝ) := Real.sq_sqrt hr0
  refine ⟨pyInt_nonneg hxa, pyInt_nonneg hxb, pyInt_le_int hxa hlea,
    pyInt_le_int hxb hleb, ?_⟩
  have h1 : (pyInt ((a : ℝ) * s) : ℝ) ≤ (a : ℝ) * s := pyInt_le_self hxa
  have h2 : (pyInt ((b : ℝ) * s) : ℝ) ≤ (b : ℝ) * s := pyInt_le_self hxb
  have h2n : (0 : ℝ) ≤ (pyInt ((b : ℝ) * s) : ℝ) := by exact_mod_cast pyInt_nonneg hxb
  have hprod : (pyInt ((a : ℝ) * s) : ℝ) * (pyInt ((b : ℝ) * s) : ℝ) ≤
      ((a : ℝ) * s) * ((b : ℝ) * s) := mul_le_mul h1 h2 h2n hxa
  have heq : ((a : ℝ) * s) * ((b : ℝ) * s) = (A : ℝ) := by
    have hring : ((a : ℝ) * s) * ((b : ℝ) * s) = ((a : ℝ) * (b : ℝ)) * s ^ 2 := by ring
    have hcast : ((a * b : ℤ) : ℝ) = (a : ℝ) * (b : ℝ) := by push_cast; ring
    have hpos : (0 : ℝ) < (a : ℝ) * (b : ℝ) := by rw [← hcast]; exact hab'
    rw [hring, hsq, hcast]
    exact mul_div_cancel₀ _ (ne_of_gt hpos)
  have hfin : (pyInt ((a : ℝ) * s) : ℝ) * (pyInt ((b : ℝ) * s) : ℝ) ≤ (A : ℝ) :=
    heq ▸ hprod
  exact_mod_cast hfin

/-- Flooring both sides of a bounded pair to multiples of 8 keeps all bounds. -/
theorem fdiv_eight_assemble {a b A S : ℤ} (ha : 0 ≤ a) (hb : 0 ≤ b)
    (haS : a ≤ S) (hbS : b ≤ S) (hab : a * b ≤ A) :
    8 ∣ a.fdiv 8 * 8 ∧ 8 ∣ b.fdiv 8 * 8 ∧ a.fdiv 8 * 8 ≤ S ∧ b.fdiv 8 * 8 ≤ S ∧
      a.fdiv 8 * 8 * (b.fdiv 8 * 8) ≤ A := by
  have h8 : (0 : ℤ) ≤ 8 := by norm_num
  have hea : a.fdiv 8 = a / 8 := Int.fdiv_eq_ediv a h8
  have heb : b.fdiv 8 = b / 8 := Int.fdiv_eq_ediv b h8
  have hla : a.fdiv 8 * 8 ≤ a := by rw [hea]; exact Int.ediv_mul_le a (by norm_num)
  have hlb : b.fdiv 8 * 8 ≤ b := by rw [heb]; exact Int.ediv_mul_le b (by norm_num)
  have hnb : 0 ≤ b.fdiv 8 * 8 := mul_nonneg (Int.fdiv_nonneg hb h8) h8
  refine ⟨⟨a.fdiv 8, mul_comm _ _⟩, ⟨b.fdiv 8, mul_comm _ _⟩,
    le_trans hla haS, le_trans hlb hbS, ?_⟩
  calc a.fdiv 8 * 8 * (b.fdiv 8 * 8) ≤ a * b := mul_le_mul hla hlb hnb ha
    _ ≤ A := hab

/-- C1: for positive source dimensions and nonnegative bounds, the adjusted
resolution consists of multiples of 8, each at most `max_side`, with product
at most `max_area`. -/
theorem calculate_adjusted_resolution_bounds (width height max_area max_side : ℤ)
    (hw : 0 < width) (hh : 0 < height) (hA : 0 ≤ max_area) (hS : 0 ≤ max_side) :
    8 ∣ (calculate_adjusted_resolution width height max_area max_side).1 ∧
    8 ∣ (calculate_adjusted_resolution width height max_area max_side).2 ∧
    (calculate_adjusted_resolution width height max_area max_side).1 ≤ max_side ∧
    (calculate_adjusted_resolution width height max_area max_side).2 ≤ max_side ∧
    (calculate_adjusted_resolution width height max_area max_side).1 *
      (calculate_adjusted_resolution width height max_area max_side).2 ≤ max_area := by
  simp only [calculate_adjusted_resolution]
  by_cases h1 : max_side < width ∨ max_side < height
  · rw [if_pos h1]
    dsimp only
    have hM : (0 : ℤ) < max width height := lt_of_lt_of_le hw (le_max_left width height)
    obtain ⟨ha0, haS⟩ := pyInt_scale_le hw.le hM (le_max_left width height) hS
    obtain ⟨hb0, hbS⟩ := pyInt_scale_le hh.le hM (le_max_right width height) hS
    by_cases h2 : max_area <
        pyInt ((width : ℝ) * ((max_side : ℝ) / ((max width height : ℤ) : ℝ))) *
          pyInt ((height : ℝ) * ((max_side : ℝ) / ((max width height : ℤ) : ℝ)))
    · rw [if_pos h2]
      dsimp only
      obtain ⟨g1, g2, g3, g4, g5⟩ := pyInt_sqrt_pair ha0 hb0 hA h2
      exact fdiv_eight_assemble g1 g2 (le_trans g3 haS) (le_trans g4 hbS) g5
    · rw [if_neg h2]
      dsimp only
      exact fdiv_eight_assemble ha0 hb0 haS hbS (not_lt.mp h2)
  · rw [if_neg h1]
    dsimp only
    push_neg at h1
    obtain ⟨hwS, hhS⟩ := h1
    by_cases h2 : max_area < width * height
    · rw [if_pos h2]
      dsimp only
      obtain ⟨g1, g2, g3, g4, g5⟩ := pyInt_sqrt_pair hw.le hh.le hA h2
      exact fdiv_eight_assemble g1 g2 (le_trans g3 hwS) (le_trans g4 hhS) g5
    · rw [if_neg h2]
      dsimp only
      exact fdiv_eight_assemble hw.le hh.le hwS hhS (not_lt.mp h2)

/-- C1 witness: a 4000×3000 source with the driver's default bounds. -/
theorem calculate_adjusted_resolution_bounds_witness :
    8 ∣ (calculate_adjusted_resolution 4000 3000 (1536 * 1536) 2048).1 ∧
    8 ∣ (calculate_adjusted_resolution 4000 3000 (1536 * 1536) 2048).2 ∧
    (calculate_adjusted_resolution 4000 3000 (1536 * 1536) 2048).1 ≤ 2048 ∧
    (calculate_adjusted_resolution 4000 3000 (1536 * 1536) 2048).2 ≤ 2048 ∧
    (calculate_adjusted_resolution 4000 3000 (1536 * 1536) 2048).1 *
      (calculate_adjusted_resolution 4000 3000 (1536 * 1536) 2048).2 ≤ 1536 * 1536 :=
  calculate_adjusted_resolution_bounds 4000 3000 (1536 * 1536) 2048
    (by norm_num) (by norm_num) (by norm_num) (by norm_num)

/-- Indexing the mapped result list of the driver loop. -/
theorem process_artist_images_get (env : GenEnv) (args : GenArgs)
    (entries : List (String × ImageInfo)) (i : ℕ) (hi : i < entries.length)
    (hi2 : i < (process_artist_images env args entries).length) :
    (process_artist_images env args entries).get ⟨i, hi2⟩
      = process_entry env args (entries.get ⟨i, hi⟩) := by
  simp [process_artist_images]

/-- C7: an entry already marked generated is skipped by the loop — no API
request, no saved file, record unchanged, no manifest write; and any entry for
which a request was made was not yet marked generated. -/
theorem process_artist_images_skips_generated (env : GenEnv) (args : GenArgs)
    (entries : List (String × ImageInfo)) (i : ℕ) (hi : i < entries.length)
    (hi2 : i < (process_artist_images env args entries).length) :
    ((entries.get ⟨i, hi⟩).2.generated = true →
      ((process_artist_images env args entries).get ⟨i, hi2⟩).requested = none ∧
      ((process_artist_images env args entries).get ⟨i, hi2⟩).saved = [] ∧
      ((process_artist_images env args entries).get ⟨i, hi2⟩).info = (entries.get ⟨i, hi⟩).2 ∧
      ((process_artist_images env args entries).get ⟨i, hi2⟩).wroteManifest = false) ∧
    (((process_artist_images env args entries).get ⟨i, hi2⟩).requested.isSome = true →
      (entries.get ⟨i, hi⟩).2.generated = false) := by
  rw [process_artist_images_get env args entries i hi hi2]
  constructor
  · intro hg
    unfold process_entry
    rw [if_pos hg]
    exact ⟨rfl, rfl, rfl, rfl⟩
  · intro hreq
    by_contra hne
    have hg : (entries.get ⟨i, hi⟩).2.generated = true := by
      cases hval : (entries.get ⟨i, hi⟩).2.generated
      · exact absurd hval hne
      · rfl
    unfold process_entry at hreq
    rw [if_pos hg] at hreq
    simp at hreq

/-- C7 witness: a one-entry manifest whose record is already generated. -/
theorem process_artist_images_skips_generated_witness :
    ((process_artist_images envOk args0 [(("a.webp"), infoDone)]).get
        ⟨0, by simp [process_artist_images]⟩).requested = none :=
  ((process_artist_images_skips_generated envOk args0 [(("a.webp"), infoDone)] 0
      (by norm_num) (by simp [process_artist_images])).1 rfl).1

/-- C10: when the HTTP request raises, `fetch_image_from_api` returns the empty
list, yet the entry is still marked generated with the manifest rewritten and
zero images saved, and a later resumed run never retries the entry. -/
theorem failed_fetch_still_marks_generated (env : GenEnv) (args : GenArgs)
    (name : String) (info : ImageInfo) (hgen : info.generated = false)
    (hapi : ∀ r, env.api r = ApiResult.raised) :
    fetch_image_from_api (env.api (mkRequest args info)) = [] ∧
    (process_entry env args (name, info)).saved = [] ∧
    (process_entry env args (name, info)).info.generated = true ∧
    (process_entry env args (name, info)).wroteManifest = true ∧
    ∀ (env2 : GenEnv) (args2 : GenArgs),
      (process_entry env2 args2 (name, (process_entry env args (name, info)).info)).requested
          = none ∧
      (process_entry env2 args2 (name, (process_entry env args (name, info)).info)).saved
          = [] := by
  have hfetch : fetch_image_from_api (env.api (mkRequest args info)) = [] := by
    rw [hapi]
    rfl
  have hres : process_entry env args (name, info) =
      { requested := some (mkRequest args info), saved := [],
        info := { info with generated := true },
        wroteManifest := true, errorLogged := false } := by
    unfold process_entry
    dsimp only
    rw [hgen, hapi]
    rfl
  refine ⟨hfetch, by rw [hres], by rw [hres], by rw [hres], ?_⟩
  intro env2 args2
  rw [hres]
  exact ⟨rfl, rfl⟩

/-- C10 witness: a concrete never-generated entry under an always-raising API. -/
theorem failed_fetch_still_marks_generated_witness :
    fetch_image_from_api (envRaise.api (mkRequest args0 infoTodo)) = [] ∧
    (process_entry envRaise args0 (("a.webp"), infoTodo)).saved = [] ∧
    (process_entry envRaise args0 (("a.webp"), infoTodo)).info.generated = true ∧
    (process_entry envRaise args0 (("a.webp"), infoTodo)).wroteManifest = true ∧
    ∀ (env2 : GenEnv) (args2 : GenArgs),
      (process_entry env2 args2 (("a.webp"),
        (process_entry envRaise args0 (("a.webp"), infoTodo)).info)).requested = none ∧
      (process_entry env2 args2 (("a.webp"),
        (process_entry envRaise args0 (("a.webp"), infoTodo)).info)).saved = [] :=
  failed_fetch_still_marks_generated envRaise args0 ("a.webp") infoTodo rfl (fun _ => rfl)

end SamplerApi

namespace Delect

/-- The cleanup produces exactly one outcome per `process.mark` file. -/
theorem delete_process_mark_files_length (unlink : String → Except String Unit)
    (files : List (String × String)) :
    (delete_process_mark_files unlink files).length
      = (files.filter fun p => p.2 = ("process.mark")).length := by
  induction files with
  | nil => rfl
  | cons hd tl ih =>
    by_cases h : hd.2 = ("process.mark") <;>
      simp [delete_process_mark_files, List.filter_cons, h] at ih ⊢ <;>
      exact ih

end Delect

/-- C8: per-item failures are caught and logged and the loop continues: the
generation driver yields a result for every entry, an entry whose decode/save
raises is logged with its record unchanged while every entry is still processed
independently, and the cleanup script yields an outcome for every
`process.mark` file, logging (not propagating) a failed deletion. -/
theorem per_item_failures_caught :
    (∀ (env : SamplerApi.GenEnv) (args : SamplerApi.GenArgs)
      (entries : List (String × SamplerApi.ImageInfo)),
      (SamplerApi.process_artist_images env args entries).length = entries.length) ∧
    (∀ (env : SamplerApi.GenEnv) (args : SamplerApi.GenArgs)
      (entries : List (String × SamplerApi.ImageInfo))
      (i : ℕ) (hi : i < entries.length)
      (hi2 : i < (SamplerApi.process_artist_images env args entries).length),
      SamplerApi.entryRaises env args (entries.get ⟨i, hi⟩) = true →
        ((SamplerApi.process_artist_images env args entries).get ⟨i, hi2⟩).errorLogged
            = true ∧
        ((SamplerApi.process_artist_images env args entries).get ⟨i, hi2⟩).info
            = (entries.get ⟨i, hi⟩).2 ∧
        ∀ (j : ℕ) (hj : j < entries.length)
          (hj2 : j < (SamplerApi.process_artist_images env args entries).length),
          (SamplerApi.process_artist_images env args entries).get ⟨j, hj2⟩
            = SamplerApi.process_entry env args (entries.get ⟨j, hj⟩)) ∧
    (∀ (unlink : String → Except String Unit) (files : List (String × String)),
      (Delect.delete_process_mark_files unlink files).length
        = (files.filter fun p => p.2 = ("process.mark")).length) ∧
    (∀ (unlink : String → Except String Unit) (files : List (String × String))
      (d msg : String), (d, ("process.mark")) ∈ files →
      unlink (d ++ ("/") ++ ("process.mark")) = .error msg →
      Delect.DelOutcome.errorLogged (d ++ ("/") ++ ("process.mark")) ∈
        Delect.delete_process_mark_files unlink files) := by
  refine ⟨?_, ?_, Delect.delete_process_mark_files_length, ?_⟩
  · intro env args entries
    unfold SamplerApi.process_artist_images
    exact List.length_map _ _
  · intro env args entries i hi hi2 hraise
    unfold SamplerApi.entryRaises at hraise
    rw [Bool.and_eq_true, Bool.not_eq_true'] at hraise
    obtain ⟨hgen, hsl⟩ := hraise
    have hres : SamplerApi.process_entry env args (entries.get ⟨i, hi⟩) =
        { requested := some (SamplerApi.mkRequest args (entries.get ⟨i, hi⟩).2),
          saved := (SamplerApi.saveLoop env (SamplerApi.pathStem (entries.get ⟨i, hi⟩).1)
            (SamplerApi.fetch_image_from_api
              (env.api (SamplerApi.mkRequest args (entries.get ⟨i, hi⟩).2))) 0).1,
          info := (entries.get ⟨i, hi⟩).2,
          wroteManifest := false, errorLogged := true } := by
      unfold SamplerApi.process_entry
      dsimp only
      rw [hgen, hsl]
      rfl
    refine ⟨?_, ?_, fun j hj hj2 => SamplerApi.process_artist_images_get env args entries j hj hj2⟩
    · rw [SamplerApi.process_artist_images_get env args entries i hi hi2, hres]
    · rw [SamplerApi.process_artist_images_get env args entries i hi hi2, hres]
  · intro unlink files d msg hmem herr
    unfold Delect.delete_process_mark_files
    rw [List.mem_filterMap]
    refine ⟨(d, ("process.mark")), hmem, ?_⟩
    dsimp only
    rw [if_pos rfl, herr]

/-- C8 witness: a failing decode/save in the driver and a failing deletion in
the cleanup script, both caught. -/
theorem per_item_failures_caught_witness :
    (SamplerApi.process_artist_images SamplerApi.envSaveFail SamplerApi.args0
      [(("a.webp"), SamplerApi.infoTodo)]).length = 1 ∧
    ((SamplerApi.process_artist_images SamplerApi.envSaveFail SamplerApi.args0
        [(("a.webp"), SamplerApi.infoTodo)]).get
      ⟨0, by simp [SamplerApi.process_artist_images]⟩).errorLogged = true ∧
    Delect.DelOutcome.errorLogged (("x") ++ ("/") ++ ("process.mark")) ∈
      Delect.delete_process_mark_files (fun _ => .error ("boom"))
        [(("x"), ("process.mark"))] := by
  refine ⟨?_, ?_, ?_⟩
  · exact per_item_failures_caught.1 SamplerApi.envSaveFail SamplerApi.args0 _
  · exact (per_item_failures_caught.2.1 SamplerApi.envSaveFail SamplerApi.args0
      [(("a.webp"), SamplerApi.infoTodo)] 0 (by norm_num)
      (by simp [SamplerApi.process_artist_images]) rfl).1
  · exact per_item_failures_caught.2.2.2 (fun _ => .error ("boom"))
      [(("x"), ("process.mark"))] ("x") ("boom") (List.mem_cons_self _ _) rfl

/-- C9 witness: concrete instances of all three structural failures. -/
theorem structural_failures_raise_witness :
    Merge.merge_safetensors none (fun _ _ => some 0) = none ∧
    Merge.merge_safetensors (some [(("k"), ("x"))]) (fun _ _ => (none : Option ℕ)) = none ∧
    ∃ e, Trainer.import_model_class_from_model_name_or_path ("T5EncoderModel") = .error e :=
  ⟨structural_failures_raise.1 _,
    structural_failures_raise.2.1 [(("k"), ("x"))] (fun _ _ => none) ("k") ("x")
      (List.mem_cons_self _ _) (by simp),
    structural_failures_raise.2.2 ("T5EncoderModel") (by decide) (by decide)⟩

namespace Trainer

/-- Cropping, optionally flipping and normalizing a channel-concatenated pair
acts on each channel slice exactly as the same crop/flip/normalize acts on the
corresponding single tensor. -/
theorem pipeline_cat_slices (a b : Tensor3) (y1 x1 th tw : ℤ) (flip : Bool) :
    Tensor3.EqOn
      (sliceC (normalizeT (if flip then hflipT (cropT (catC a b) y1 x1 th tw)
        else cropT (catC a b) y1 x1 th tw)) 0 a.channels)
      (normalizeT (if flip then hflipT (cropT a y1 x1 th tw)
        else cropT a y1 x1 th tw)) ∧
    Tensor3.EqOn
      (sliceC (normalizeT (if flip then hflipT (cropT (catC a b) y1 x1 th tw)
        else cropT (catC a b) y1 x1 th tw)) a.channels b.channels)
      (normalizeT (if flip then hflipT (cropT b y1 x1 th tw)
        else cropT b y1 x1 th tw)) := by
  cases flip <;> constructor <;>
    refine ⟨rfl, rfl, rfl, ?_⟩ <;> intro c i j hc0 hc <;>
    dsimp only [sliceC, normalizeT, hflipT, cropT, catC, Tensor3.EqOn] at hc ⊢
  · rw [if_neg (show ¬(false = true) from by decide)]
    dsimp only
    rw [zero_add, if_pos hc]
    rw [if_neg (show ¬(false = true) from by decide)]
  · rw [if_neg (show ¬(false = true) from by decide)]
    dsimp only
    rw [if_neg (by omega : ¬ a.channels + c < a.channels),
      (by omega : a.channels + c - a.channels = c)]
    rw [if_neg (show ¬(false = true) from by decide)]
  · rw [if_pos (show true = true from rfl)]
    dsimp only
    rw [zero_add, if_pos hc]
    rw [if_pos (show true = true from rfl)]
  · rw [if_pos (show true = true from rfl)]
    dsimp only
    rw [if_neg (by omega : ¬ a.channels + c < a.channels),
      (by omega : a.channels + c - a.channels = c)]
    rw [if_pos (show true = true from rfl)]

/-- C6: both images of a preference pair receive identical spatial
augmentation: the pair tensor returned by the preprocessing step is, slice by
slice, the two (possibly reordered) source tensors processed by one and the
same crop (the returned `crop_top_left` with the target extent) and one and
the same flip decision, because crop and flip are applied once to the
channel-concatenated pair. -/
theorem preprocess_pair_shared_augmentation (args : TrainArgs) (rnd : Rand)
    (t0 t1 : Tensor3) (label_0 target_h target_w : ℤ) :
    ∃ a b : Tensor3, ∃ flip : Bool, ∃ y1 x1 : ℤ,
      ((a, b) = (t0, t1) ∨ (a, b) = (t1, t0)) ∧
      (preprocess_pair args rnd t0 t1 label_0 target_h target_w).2 = (y1, x1) ∧
      Tensor3.EqOn
        (sliceC (preprocess_pair args rnd t0 t1 label_0 target_h target_w).1 0 a.channels)
        (normalizeT (if flip then hflipT (cropT a y1 x1 target_h target_w)
          else cropT a y1 x1 target_h target_w)) ∧
      Tensor3.EqOn
        (sliceC (preprocess_pair args rnd t0 t1 label_0 target_h target_w).1
          a.channels b.channels)
        (normalizeT (if flip then hflipT (cropT b y1 x1 target_h target_w)
          else cropT b y1 x1 target_h target_w)) := by
  simp only [preprocess_pair]
  by_cases hl : (if (args.label_noise_prob.isSome && rnd.coinNoise) = true
      then 1 - label_0 else label_0) = 0
  · rw [if_pos hl]
    dsimp only
    refine ⟨t1, t0, (!args.no_hflip && rnd.coinFlip), _, _, Or.inr rfl, rfl, ?_, ?_⟩
    · exact (pipeline_cat_slices t1 t0 _ _ target_h target_w _).1
    · exact (pipeline_cat_slices t1 t0 _ _ target_h target_w _).2
  · rw [if_neg hl]
    dsimp only
    refine ⟨t0, t1, (!args.no_hflip && rnd.coinFlip), _, _, Or.inl rfl, rfl, ?_, ?_⟩
    · exact (pipeline_cat_slices t0 t1 _ _ target_h target_w _).1
    · exact (pipeline_cat_slices t0 t1 _ _ target_h target_w _).2

/-- The embedded per-example loss equals the spec's per-example MSE on
equal-length examples. -/
theorem spec_mse_eq (p t : List ℝ) (h : p.length = t.length) :
    mse_loss_mean p t = spec_mse p t := by
  unfold mse_loss_mean spec_mse mean
  rw [List.zip_eq_zipWith, List.map_zipWith, List.length_zipWith, h, min_self]

/-- C3: on an equal-shape batch with an even batch dimension, `compute_loss`
returns exactly the spec's scalar objective — the mean of the winning-half
per-example MSE losses minus the mean of the ratio losses, the ratio losses
being `beta_mapo` times the log-sigmoid of the timestep-scaled log-odds
margin — together with the winning, losing and ratio vectors. -/
theorem compute_loss_eq_spec (snr_value beta_mapo : ℝ) (num_train_timesteps : ℕ)
    (model_pred target : List (List ℝ))
    (hshape : List.Forall₂ (fun p t : List ℝ => p.length = t.length) model_pred target)
    (heven : Even model_pred.length) :
    compute_loss snr_value beta_mapo num_train_timesteps model_pred target =
      (spec_loss snr_value beta_mapo num_train_timesteps model_pred target,
       (List.range (model_pred.length / 2)).map (spec_win model_pred target),
       (List.range (model_pred.length / 2)).map (spec_lose model_pred target),
       (List.range (model_pred.length / 2)).map
         (spec_ratio snr_value beta_mapo num_train_timesteps model_pred target)) := by
  have hlen : model_pred.length = target.length := hshape.length_eq
  obtain ⟨hlen2, hget⟩ := List.forall₂_iff_get.mp hshape
  obtain ⟨n, hn⟩ := heven
  have hmll : (List.zipWith mse_loss_mean model_pred target).length = n + n := by
    rw [List.length_zipWith, ← hlen, min_self, hn]
  have hk : ((List.zipWith mse_loss_mean model_pred target).length + 1) / 2 = n := by
    rw [hmll]
    omega
  have hn2 : model_pred.length / 2 = n := by omega
  have hml_get : ∀ (i : ℕ) (h2 : i < (List.zipWith mse_loss_mean model_pred target).length),
      (List.zipWith mse_loss_mean model_pred target)[i]
        = spec_mse (model_pred.getD i []) (target.getD i []) := by
    intro i h2
    rw [hmll] at h2
    have hip : i < model_pred.length := by omega
    have hit : i < target.length := by omega
    rw [List.getElem_zipWith]
    rw [List.getD_eq_getElem _ _ hip, List.getD_eq_getElem _ _ hit]
    exact spec_mse_eq _ _ (hget i hip hit)
  have hW : (List.zipWith mse_loss_mean model_pred target).take n
      = (List.range n).map (spec_win model_pred target) := by
    apply List.ext_getElem
    · simp only [List.length_take, List.length_map, List.length_range, hmll]
      omega
    · intro i h1 h2
      rw [List.length_take, hmll] at h1
      simp only [List.getElem_take, List.getElem_map, List.getElem_range]
      rw [hml_get i (by rw [hmll]; omega)]
      rfl
  have hL : (List.zipWith mse_loss_mean model_pred target).drop n
      = (List.range n).map (spec_lose model_pred target) := by
    apply List.ext_getElem
    · simp only [List.length_drop, List.length_map, List.length_range, hmll]
      omega
    · intro i h1 h2
      rw [List.length_drop, hmll] at h1
      simp only [List.getElem_drop, List.getElem_map, List.getElem_range]
      rw [hml_get (n + i) (by rw [hmll]; omega)]
      unfold spec_lose
      rw [hn2]
  simp only [compute_loss]
  rw [hk, hW, hL]
  have hR : (logOddsOf snr_value ((List.range n).map (spec_win model_pred target))
        ((List.range n).map (spec_lose model_pred target))).map
        (fun x => beta_mapo * logsigmoid (x * (num_train_timesteps : ℝ)))
      = (List.range n).map
        (spec_ratio snr_value beta_mapo num_train_timesteps model_pred target) := by
    unfold logOddsOf
    rw [List.zipWith_map, List.zipWith_same, List.map_map]
    rfl
  rw [hR]
  have hLoss : mean ((List.range n).map (spec_win model_pred target)) -
        mean ((List.range n).map
          (spec_ratio snr_value beta_mapo num_train_timesteps model_pred target))
      = spec_loss snr_value beta_mapo num_train_timesteps model_pred target := by
    unfold spec_loss mean
    rw [hn2]
    simp
  rw [hLoss, hn2]

/-- C3 witness: a concrete two-example batch. -/
theorem compute_loss_eq_spec_witness :
    compute_loss 1 1 1 [[2], [1]] [[0], [0]] =
      (spec_loss 1 1 1 [[2], [1]] [[0], [0]],
       (List.range (([[2], [1]] : List (List ℝ)).length / 2)).map
         (spec_win [[2], [1]] [[0], [0]]),
       (List.range (([[2], [1]] : List (List ℝ)).length / 2)).map
         (spec_lose [[2], [1]] [[0], [0]]),
       (List.range (([[2], [1]] : List (List ℝ)).length / 2)).map
         (spec_ratio 1 1 1 [[2], [1]] [[0], [0]])) :=
  compute_loss_eq_spec 1 1 1 [[2], [1]] [[0], [0]]
    (by refine List.Forall₂.cons rfl (List.Forall₂.cons rfl List.Forall₂.nil))
    (by norm_num)

/-- The log-sigmoid satisfies `logsigmoid x - logsigmoid (-x) = x`. -/
theorem logsigmoid_sub_neg (x : ℝ) : logsigmoid x - logsigmoid (-x) = x := by
  unfold logsigmoid
  rw [neg_neg]
  have h1 : (0 : ℝ) < 1 + Real.exp (-x) := by positivity
  have key : Real.exp x * (1 + Real.exp (-x)) = 1 + Real.exp x := by
    rw [mul_add, mul_one, ← Real.exp_add]
    rw [show x + -x = 0 from by ring, Real.exp_zero]
    ring
  rw [← key, Real.log_mul (Real.exp_ne_zero x) (ne_of_gt h1), Real.log_exp]
  ring

/-- Pointwise difference of the ratio losses on a margin list and its negation. -/
theorem ratio_sum_diff (beta T : ℝ) (lo : List ℝ) :
    (lo.map fun x => beta * logsigmoid (x * T)).sum -
      ((lo.map fun x => -x).map fun x => beta * logsigmoid (x * T)).sum
      = beta * T * lo.sum := by
  induction lo with
  | nil => simp
  | cons hd tl ih =>
    simp only [List.map_cons, List.sum_cons]
    have h2 : logsigmoid (hd * T) - logsigmoid (-(hd * T)) = hd * T :=
      logsigmoid_sub_neg (hd * T)
    have hh : beta * logsigmoid (hd * T) - beta * logsigmoid (-hd * T) = beta * T * hd := by
      rw [neg_mul]
      linear_combination beta * h2
    linear_combination hh + ih

/-- Reversing the roles of the two halves negates every log-odds margin. -/
theorem logOddsOf_swap (snr : ℝ) (w l : List ℝ) :
    logOddsOf snr l w = (logOddsOf snr w l).map fun x => -x := by
  induction w generalizing l with
  | nil => cases l <;> rfl
  | cons a as ih =>
    cases l with
    | nil => rfl
    | cons b bs =>
      simp only [logOddsOf, List.zipWith_cons_cons, List.map_cons] at *
      rw [show snrTransform snr b - snrTransform snr a
          = -(snrTransform snr a - snrTransform snr b) from by ring, ih bs]

/-- C4 counterexample: swapping the batch halves (the effect of flipping the
label, which reverses the image pair) changes the scalar loss on a concrete
batch with distinct winning and losing reconstruction losses. -/
theorem compute_loss_swap_counterexample :
    (compute_loss 1 1 1 [[2], [1]] [[0], [0]]).1 ≠
      (compute_loss 1 1 1 (swapHalves [[2], [1]]) (swapHalves [[0], [0]])).1 := by
  have hswap1 : swapHalves ([[2], [1]] : List (List ℝ)) = [[1], [2]] := rfl
  have hswap2 : swapHalves ([[0], [0]] : List (List ℝ)) = [[0], [0]] := rfl
  rw [hswap1, hswap2]
  have e1 : (compute_loss 1 1 1 [[2], [1]] [[0], [0]]).1
      = 4 - logsigmoid (snrTransform 1 4 - snrTransform 1 1) := by
    norm_num [compute_loss, mse_loss_mean, mean, logOddsOf]
  have e2 : (compute_loss 1 1 1 [[1], [2]] [[0], [0]]).1
      = 1 - logsigmoid (snrTransform 1 1 - snrTransform 1 4) := by
    norm_num [compute_loss, mse_loss_mean, mean, logOddsOf]
  rw [e1, e2]
  intro heq
  have hid : logsigmoid (snrTransform 1 4 - snrTransform 1 1) -
      logsigmoid (-(snrTransform 1 4 - snrTransform 1 1))
      = snrTransform 1 4 - snrTransform 1 1 := logsigmoid_sub_neg _
  have hneg : snrTransform 1 1 - snrTransform 1 4
      = -(snrTransform 1 4 - snrTransform 1 1) := by ring
  rw [hneg] at heq
  have ha : snrTransform 1 4 - snrTransform 1 1 = 3 := by linarith
  have h4 : Real.exp 4 ≥ 5 := by
    have := Real.add_one_le_exp (4 : ℝ)
    linarith
  have h1 : Real.exp 1 ≥ 2 := by
    have := Real.add_one_le_exp (1 : ℝ)
    linarith
  have hg4 : snrTransform 1 4 ≤ 1 := by
    unfold snrTransform
    norm_num
    rw [div_le_one (by linarith : (0 : ℝ) < Real.exp 4 - 1)]
    linarith
  have hg1 : 0 < snrTransform 1 1 := by
    unfold snrTransform
    norm_num
  linarith

/-- C4 amended: the loss is not invariant under exchanging the halves; instead
the swap identity holds: the original loss minus the swapped loss equals the
mean winning loss minus the mean losing loss minus `beta_mapo` times the
timestep count times the mean log-odds margin, so the loss is preserved only
when that combination vanishes. -/
theorem compute_loss_swap_identity (snr_value beta_mapo : ℝ) (num_train_timesteps : ℕ)
    (model_pred target : List (List ℝ))
    (hlen : model_pred.length = target.length)
    (heven : Even model_pred.length) :
    (compute_loss snr_value beta_mapo num_train_timesteps model_pred target).1 -
      (compute_loss snr_value beta_mapo num_train_timesteps
        (swapHalves model_pred) (swapHalves target)).1
    = mean (compute_loss snr_value beta_mapo num_train_timesteps model_pred target).2.1 -
        mean (compute_loss snr_value beta_mapo num_train_timesteps model_pred target).2.2.1 -
        beta_mapo * (num_train_timesteps : ℝ) *
          mean (logOddsOf snr_value
            (compute_loss snr_value beta_mapo num_train_timesteps model_pred target).2.1
            (compute_loss snr_value beta_mapo num_train_timesteps
              model_pred target).2.2.1) := by
  obtain ⟨n, hn⟩ := heven
  have hmll : (List.zipWith mse_loss_mean model_pred target).length = n + n := by
    rw [List.length_zipWith, ← hlen, min_self, hn]
  have hk : ((List.zipWith mse_loss_mean model_pred target).length + 1) / 2 = n := by
    rw [hmll]
    omega
  have hswap : List.zipWith mse_loss_mean (swapHalves model_pred) (swapHalves target)
      = (List.zipWith mse_loss_mean model_pred target).drop n
        ++ (List.zipWith mse_loss_mean model_pred target).take n := by
    unfold swapHalves
    rw [show model_pred.length / 2 = n from by omega,
      show target.length / 2 = n from by rw [← hlen]; omega]
    rw [List.zipWith_append _ _ _ _ _ (by simp [hlen]), ← List.drop_zipWith,
      ← List.take_zipWith]
  have hmll' : (List.zipWith mse_loss_mean (swapHalves model_pred)
      (swapHalves target)).length = n + n := by
    rw [hswap, List.length_append, List.length_drop, List.length_take, hmll]
    omega
  have hk' : ((List.zipWith mse_loss_mean (swapHalves model_pred)
      (swapHalves target)).length + 1) / 2 = n := by
    rw [hmll']
    omega
  have hw' : (List.zipWith mse_loss_mean (swapHalves model_pred) (swapHalves target)).take n
      = (List.zipWith mse_loss_mean model_pred target).drop n := by
    rw [hswap]
    exact List.take_left' (by rw [List.length_drop, hmll]; omega)
  have hl' : (List.zipWith mse_loss_mean (swapHalves model_pred) (swapHalves target)).drop n
      = (List.zipWith mse_loss_mean model_pred target).take n := by
    rw [hswap]
    exact List.drop_left' (by rw [List.length_drop, hmll]; omega)
  simp only [compute_loss]
  rw [hk, hk', hw', hl']
  rw [logOddsOf_swap snr_value ((List.zipWith mse_loss_mean model_pred target).take n)
    ((List.zipWith mse_loss_mean model_pred target).drop n)]
  have hdiff := ratio_sum_diff beta_mapo (num_train_timesteps : ℝ)
    (logOddsOf snr_value ((List.zipWith mse_loss_mean model_pred target).take n)
      ((List.zipWith mse_loss_mean model_pred target).drop n))
  unfold mean
  simp only [List.length_map]
  have h2 : ((logOddsOf snr_value ((List.zipWith mse_loss_mean model_pred target).take n)
          ((List.zipWith mse_loss_mean model_pred target).drop n)).map
          fun x => beta_mapo * logsigmoid (x * (num_train_timesteps : ℝ))).sum /
        ((logOddsOf snr_value ((List.zipWith mse_loss_mean model_pred target).take n)
          ((List.zipWith mse_loss_mean model_pred target).drop n)).length : ℝ) -
      (((logOddsOf snr_value ((List.zipWith mse_loss_mean model_pred target).take n)
          ((List.zipWith mse_loss_mean model_pred target).drop n)).map fun x => -x).map
          fun x => beta_mapo * logsigmoid (x * (num_train_timesteps : ℝ))).sum /
        ((logOddsOf snr_value ((List.zipWith mse_loss_mean model_pred target).take n)
          ((List.zipWith mse_loss_mean model_pred target).drop n)).length : ℝ)
      = beta_mapo * (num_train_timesteps : ℝ) *
        ((logOddsOf snr_value ((List.zipWith mse_loss_mean model_pred target).take n)
          ((List.zipWith mse_loss_mean model_pred target).drop n)).sum /
        ((logOddsOf snr_value ((List.zipWith mse_loss_mean model_pred target).take n)
          ((List.zipWith mse_loss_mean model_pred target).drop n)).length : ℝ)) := by
    rw [div_sub_div_same, hdiff, mul_div_assoc]
  linarith [h2]

/-- C4 witness: the swap identity evaluated on a concrete two-example batch. -/
theorem compute_loss_swap_identity_witness :
    (compute_loss 1 1 1 [[3], [2]] [[0], [0]]).1 -
      (compute_loss 1 1 1 (swapHalves [[3], [2]]) (swapHalves [[0], [0]])).1
    = mean (compute_loss 1 1 1 [[3], [2]] [[0], [0]]).2.1 -
        mean (compute_loss 1 1 1 [[3], [2]] [[0], [0]]).2.2.1 -
        1 * ((1 : ℕ) : ℝ) *
          mean (logOddsOf 1 (compute_loss 1 1 1 [[3], [2]] [[0], [0]]).2.1
            (compute_loss 1 1 1 [[3], [2]] [[0], [0]]).2.2.1) :=
  compute_loss_swap_identity 1 1 1 [[3], [2]] [[0], [0]] rfl (by norm_num)

end Trainer


